import Mathlib

/-!
Formal model of the SebbyAshan portfolio front-end (Angular application).

Three source components are embedded:
* `header-particles.component.ts` — the particle lifecycle adapter, embedded as
  an explicit event-driven transition system (`hpStep`): the asynchronous
  initialization body is cut at its await/checkpoint boundaries into discrete
  events and the browser scheduler chooses the interleaving.  The two custom
  particle updaters (`rockerSmooth`, `rockerStep`) are embedded as pure
  functions over real numbers.
* `navigation.component.ts` — the scroll-synced navigation state machine,
  embedded over rational scroll coordinates.
* `app.component.ts` — the services carousel index arithmetic.
-/

/-- Observable state of the (opaque) particle engine instance, as far as the
adapter drives it: whether `play()` has been invoked and whether the instance
has been released via `destroy()`. -/
structure EngineRec where
  playing : Bool
  destroyed : Bool
deriving DecidableEq

/-- A freshly constructed engine instance: not started, not released. -/
def EngineRec.fresh : EngineRec := ⟨false, false⟩

/-- Model of `container.play()`. -/
def EngineRec.play (e : EngineRec) : EngineRec := { e with playing := true }

/-- Model of `container.stop()`. -/
def EngineRec.stop (e : EngineRec) : EngineRec := { e with playing := false }

/-- Model of `container.destroy()` (release of the instance's resources). -/
def EngineRec.destroy (e : EngineRec) : EngineRec := { e with destroyed := true }

/-- Progress of the one asynchronous initialization body of
`ngAfterViewInit`:  `idle` = `initPromise` is still `null`; `beforeLoad` =
the body is running, before the early `destroyed` check (line 130);
`loadPending` = the `tsParticles.load` call has been issued; `done` = the
promise has settled. -/
inductive InitPhase where
  | idle
  | beforeLoad
  | loadPending
  | done
deriving DecidableEq

/-- Outcome of the awaited `tsParticles.load(...)` call: it can reject
(`failure`, caught by the surrounding `catch`), resolve to `null`/`undefined`
(`nullContainer`), or resolve to a live container (`success`). -/
inductive LoadOutcome where
  | failure
  | nullContainer
  | success
deriving DecidableEq

/-- Events driving the adapter.  `afterViewInit` is the synchronous prefix of
`ngAfterViewInit` (platform and re-entry guards); `abortCheck` is the async
body reaching the `if (this.destroyed) return null` checkpoint after module
loading; `loadResolved` is the `tsParticles.load` await settling and the rest
of the body running; `resize` is `onWindowResized`; `frame` is the
`requestAnimationFrame` callback firing; `teardown` is `ngOnDestroy`, whose
two flags say whether `stop()` resp. `destroy()` throw (caught by the
`try`/`catch`). -/
inductive HPEv where
  | afterViewInit (isBrowser : Bool)
  | abortCheck
  | loadResolved (o : LoadOutcome)
  | resize
  | frame
  | teardown (stopThrows destroyThrows : Bool)
deriving DecidableEq

/-- State of one `HeaderParticlesComponent` instance.  `container`, `phase`
(standing for `initPromise`), `destroyed` and `resizeRaf` mirror the four
private fields; `aborted` records the engine destroyed on the
teardown-raced-construction path, `released` the engine released by
`ngOnDestroy`; `refreshCount`, `errorLogged`, `created` and `attempts` are
observation counters (number of `refresh()` calls, whether `console.error`
ran, number of engine instances ever produced, number of initialization
attempts started). -/
structure HPState where
  container : Option EngineRec
  phase : InitPhase
  destroyed : Bool
  resizeRaf : Bool
  aborted : Option EngineRec
  released : Option EngineRec
  refreshCount : Nat
  errorLogged : Bool
  created : Nat
  attempts : Nat
deriving DecidableEq

/-- Initial state of a freshly constructed component. -/
def HPState.start : HPState :=
  { container := none, phase := .idle, destroyed := false, resizeRaf := false,
    aborted := none, released := none, refreshCount := 0, errorLogged := false,
    created := 0, attempts := 0 }

/-- One step of the adapter transition system, translated branch by branch
from `header-particles.component.ts`. -/
def hpStep (s : HPState) : HPEv → HPState
  | .afterViewInit isBrowser =>
    if isBrowser = false then s
    else if s.phase ≠ .idle then s
    else { s with phase := .beforeLoad, attempts := s.attempts + 1 }
  | .abortCheck =>
    if s.phase ≠ .beforeLoad then s
    else if s.destroyed then { s with phase := .done }
    else { s with phase := .loadPending }
  | .loadResolved o =>
    if s.phase ≠ .loadPending then s
    else
      match o with
      | .failure => { s with phase := .done, errorLogged := true }
      | .nullContainer =>
        if s.destroyed then { s with phase := .done }
        else { s with phase := .done, container := none }
      | .success =>
        if s.destroyed then
          { s with phase := .done, created := s.created + 1,
                   aborted := some EngineRec.fresh.destroy }
        else
          { s with phase := .done, created := s.created + 1,
                   container := some EngineRec.fresh.play }
  | .resize =>
    if s.container = none then s
    else if s.resizeRaf then s
    else { s with resizeRaf := true }
  | .frame =>
    if s.resizeRaf = false then s
    else { s with resizeRaf := false,
                  refreshCount :=
                    if s.container.isSome then s.refreshCount + 1
                    else s.refreshCount }
  | .teardown stopThrows destroyThrows =>
    match s.container with
    | none => { s with destroyed := true, resizeRaf := false }
    | some eng =>
      let eng1 := if stopThrows then eng else eng.stop
      let eng2 :=
        if stopThrows then eng1
        else if destroyThrows then eng1 else eng1.destroy
      { s with destroyed := true, resizeRaf := false,
               container := none, released := some eng2 }

/-- Run the adapter from its initial state through a list of events. -/
def hpRun (evs : List HPEv) : HPState := evs.foldl hpStep HPState.start

/-- Reachability invariant of the adapter:  after teardown the instance
reference is null; at most one engine is ever created and one attempt ever
started; before the promise settles there is no container and no error was
logged; the aborted engine, if any, is the never-started destroyed one. -/
def HPInv (s : HPState) : Prop :=
  (s.destroyed = true → s.container = none)
  ∧ s.created ≤ 1
  ∧ (s.phase ≠ .done → s.created = 0)
  ∧ s.attempts ≤ 1
  ∧ (s.phase = .idle → s.attempts = 0)
  ∧ (s.phase ≠ .done → s.container = none)
  ∧ (s.phase ≠ .done → s.errorLogged = false)
  ∧ (s.aborted = none ∨ s.aborted = some ⟨false, true⟩)

/-- Event trace realizing the C1 race: activation starts, the construction
request is issued, then teardown runs before the construction resolves. -/
def c1Evs : List HPEv :=
  [HPEv.afterViewInit true, HPEv.abortCheck, HPEv.teardown false false]

/-- Event trace reaching the in-flight construction state: activation starts
and the construction request is issued. -/
def c8Evs : List HPEv := [HPEv.afterViewInit true, HPEv.abortCheck]

/-- Per-particle configuration block of the `rockerSmooth` updater
(`IImage.rockerSmooth`), all fields optional as in the TypeScript
declaration. -/
structure RockerSmoothCfg where
  enabled : Option Bool := none
  minDeg : Option ℝ := none
  maxDeg : Option ℝ := none
  periodSec : Option ℝ := none

/-- Per-particle configuration block of the `rockerStep` updater
(`IImage.rockerStep`). -/
structure RockerStepCfg where
  enabled : Option Bool := none
  lowDeg : Option ℝ := none
  highDeg : Option ℝ := none
  holdSec : Option ℝ := none

/-- The image shape data carried by a particle (`p.shapeData as IImage`),
restricted to the two fields the updaters read. -/
structure ImageShapeData where
  rockerSmooth : Option RockerSmoothCfg := none
  rockerStep : Option RockerStepCfg := none

/-- A particle as seen by the two updaters: its shape data, its rotation
field, and the two lazily attached private timing states (`__rock.t`,
`__rockStep.t`), `none` until first attached. -/
structure SParticle where
  shapeData : Option ImageShapeData := none
  rotation : ℝ := 0
  rockT : Option ℝ := none
  rockStepT : Option ℝ := none

/-- Enablement predicate of `rockerSmooth`:
`!!(p.shapeData as IImage)?.rockerSmooth?.enabled`. -/
def isEnabledSmooth (p : SParticle) : Bool :=
  ((p.shapeData.bind fun d => d.rockerSmooth).bind fun c => c.enabled).getD false

/-- Enablement predicate of `rockerStep`. -/
def isEnabledStep (p : SParticle) : Bool :=
  ((p.shapeData.bind fun d => d.rockerStep).bind fun c => c.enabled).getD false

/-- The configuration actually used by the smooth updater:
`img?.rockerSmooth ?? {}`. -/
def smoothCfg (p : SParticle) : RockerSmoothCfg :=
  (p.shapeData.bind fun d => d.rockerSmooth).getD {}

/-- The configuration actually used by the step updater:
`img?.rockerStep ?? {}`. -/
def stepCfg (p : SParticle) : RockerStepCfg :=
  (p.shapeData.bind fun d => d.rockerStep).getD {}

/-- JavaScript remainder `a % b` for the operand signs arising here
(truncated division). -/
noncomputable def jsMod (a b : ℝ) : ℝ :=
  if 0 ≤ a / b then a - b * (⌊a / b⌋ : ℝ) else a - b * (⌈a / b⌉ : ℝ)

/-- Update function of the `rockerSmooth` particle updater, translated from
the registered updater's `update(p, delta)`.  `rand` stands for the
`Math.random()` draw used when the timing state is first attached, `deltaMs`
for `delta.value`. -/
noncomputable def rockerSmoothUpdate (rand deltaMs : ℝ) (p : SParticle) :
    SParticle :=
  if isEnabledSmooth p = false then p
  else
    let cfg := smoothCfg p
    let a0 := cfg.minDeg.getD 0
    let a1 := cfg.maxDeg.getD 30
    let period := cfg.periodSec.getD 4
    let center := (a0 + a1) / 2
    let amp := (a1 - a0) / 2
    let t := p.rockT.getD (rand * period) + deltaMs / 1000
    let omega := 2 * Real.pi / period
    let deg := center + amp * Real.sin (omega * t)
    { p with rockT := some t, rotation := deg * Real.pi / 180 }

/-- Update function of the `rockerStep` particle updater, translated from the
registered updater's `update(p, delta)`. -/
noncomputable def rockerStepUpdate (deltaMs : ℝ) (p : SParticle) : SParticle :=
  if isEnabledStep p = false then p
  else
    let cfg := stepCfg p
    let aLow := cfg.lowDeg.getD 0
    let aHigh := cfg.highDeg.getD 30
    let hold := cfg.holdSec.getD 2
    let t := p.rockStepT.getD 0 + deltaMs / 1000
    let cycle := 2 * hold
    let phase := jsMod t cycle
    let deg := if phase < hold then aLow else aHigh
    { p with rockStepT := some t, rotation := deg * Real.pi / 180 }

/-- Degrees-to-radians conversion `deg * Math.PI / 180`. -/
noncomputable def degToRad (d : ℝ) : ℝ := d * Real.pi / 180

/-- Milliseconds-to-seconds conversion `delta.value / 1000`. -/
noncomputable def msToSec (m : ℝ) : ℝ := m / 1000

/-- The smooth updater's angle in degrees at accumulated time `t`. -/
noncomputable def smoothAngleDeg (a0 a1 period t : ℝ) : ℝ :=
  (a0 + a1) / 2 + (a1 - a0) / 2 * Real.sin (2 * Real.pi / period * t)

/-- The step updater's angle in degrees at accumulated time `t`. -/
noncomputable def stepAngleDeg (aLow aHigh hold t : ℝ) : ℝ :=
  if jsMod t (2 * hold) < hold then aLow else aHigh

/-- One entry of `navigationItems` in `navigation.component.ts`. -/
structure NavItem where
  label : String
  path : String
  scrollTarget : String
  isActive : Bool
deriving DecidableEq

/-- The fixed `navigationItems` array, as initialized at construction. -/
def navigationItemsInit : List NavItem :=
  [⟨"Home", "#home", "top", false⟩,
   ⟨"Gallery", "#gallery", "gallery-section", false⟩,
   ⟨"Services", "#services", "services-section", false⟩,
   ⟨"About Me", "#about-me", "about-me-section", false⟩]

/-- Mutable state of the `NavigationComponent`. -/
structure NavState where
  navigationItems : List NavItem
  isMobileMenuOpen : Bool
  currentActiveSection : String
deriving DecidableEq

/-- State of a freshly constructed `NavigationComponent` (before `ngOnInit`
runs). -/
def NavState.start : NavState := ⟨navigationItemsInit, false, "top"⟩

/-- Translation of `setActiveSection(sectionId)`: records the current active
section and recomputes every item's `isActive` flag. -/
def setActiveSection (sectionId : String) (s : NavState) : NavState :=
  { s with currentActiveSection := sectionId,
           navigationItems := s.navigationItems.map fun item =>
             { item with isActive := item.scrollTarget == sectionId } }

/-- Whether any of the three selector attempts of `scrollToSection` finds an
element; `dom sel` says whether `document.querySelector(sel)` returns an
element for the selector string `sel`. -/
def resolveSelector (dom : String → Bool) (sectionTarget : String) : Bool :=
  dom ("#" ++ sectionTarget) || dom ("." ++ sectionTarget) || dom sectionTarget

/-- Translation of `scrollToSection(sectionTarget)`, reduced to its observable
outcome: `true` iff the `console.warn` branch runs (no selector matched). -/
def scrollToSectionWarns (dom : String → Bool) (sectionTarget : String) :
    Bool :=
  !resolveSelector dom sectionTarget

/-- Translation of `onNavigationClick(item)`.  Returns the new component
state together with whether a warning was logged.  The `item.scrollTarget`
truthiness test of the source is the non-empty-string test. -/
def onNavigationClick (dom : String → Bool) (item : NavItem) (s : NavState) :
    NavState × Bool :=
  let warned :=
    if item.scrollTarget == "top" then false
    else if item.scrollTarget ≠ "" then scrollToSectionWarns dom item.scrollTarget
    else false
  let s1 := { s with isMobileMenuOpen := false }
  (setActiveSection item.scrollTarget s1, warned)

/-- Viewport-relative bounding rectangle of a section element
(`getBoundingClientRect().top` and `.height`). -/
structure SectionRect where
  top : ℚ
  height : ℚ
deriving DecidableEq

/-- The DOM geometry read by `updateActiveSection`: scroll offset, viewport
height, and the rectangles of the three tracked sections (`none` when
`document.querySelector` finds no element). -/
structure PageGeom where
  scrollY : ℚ
  innerHeight : ℚ
  galleryRect : Option SectionRect
  servicesRect : Option SectionRect
  aboutMeRect : Option SectionRect
deriving DecidableEq

/-- The `for`-loop of `updateActiveSection`: first section whose
document-relative bounds contain the viewport midpoint wins; missing elements
are skipped; the default is `"top"`. -/
def findActiveSection (scrollY mid : ℚ) :
    List (String × Option SectionRect) → String
  | [] => "top"
  | (_, none) :: rest => findActiveSection scrollY mid rest
  | (sid, some r) :: rest =>
    let elementTop := r.top + scrollY
    let elementBottom := elementTop + r.height
    if elementTop ≤ mid ∧ mid ≤ elementBottom then sid
    else findActiveSection scrollY mid rest

/-- The `sections` array built by `updateActiveSection`, in source order. -/
def trackedSections (g : PageGeom) : List (String × Option SectionRect) :=
  [("gallery-section", g.galleryRect),
   ("services-section", g.servicesRect),
   ("about-me-section", g.aboutMeRect)]

/-- Translation of `updateActiveSection()`. -/
def updateActiveSection (g : PageGeom) (s : NavState) : NavState :=
  if g.scrollY < 100 then setActiveSection "top" s
  else
    let viewportMiddle := g.scrollY + g.innerHeight / 2
    let activeSection :=
      findActiveSection g.scrollY viewportMiddle (trackedSections g)
    if activeSection ≠ s.currentActiveSection then
      setActiveSection activeSection s
    else s

/-- Modelled from the spec's wording of the active-section computation (used
for the refinement comparison): below the 100-unit threshold the section is
the sentinel `"top"`; otherwise the first of gallery, services, about-me whose
document-relative bounds contain the viewport midpoint; fallback `"top"`. -/
def rectContainsMid (scrollY mid : ℚ) : Option SectionRect → Bool
  | none => false
  | some r => decide (r.top + scrollY ≤ mid ∧ mid ≤ r.top + scrollY + r.height)

/-- Spec-side definition of the computed active section (see
`rectContainsMid`). -/
def specActiveSection (g : PageGeom) : String :=
  if g.scrollY < 100 then "top"
  else
    let mid := g.scrollY + g.innerHeight / 2
    if rectContainsMid g.scrollY mid g.galleryRect then "gallery-section"
    else if rectContainsMid g.scrollY mid g.servicesRect then "services-section"
    else if rectContainsMid g.scrollY mid g.aboutMeRect then "about-me-section"
    else "top"

/-- The `services` array of `app.component.ts`, reduced to its ids. -/
def services : List String := ["stickers", "game-assets", "websites"]

/-- Translation of `goToService(index)` on `currentServiceIndex`. -/
def goToService (index : Nat) : Nat := index

/-- Translation of `previousService()` on `currentServiceIndex`. -/
def previousService (currentServiceIndex : Nat) : Nat :=
  if currentServiceIndex > 0 then currentServiceIndex - 1
  else services.length - 1

/-- Translation of `nextService()` on `currentServiceIndex`. -/
def nextService (currentServiceIndex : Nat) : Nat :=
  if currentServiceIndex < services.length - 1 then currentServiceIndex + 1
  else 0

/-- One user/auto navigation action on the services carousel. -/
inductive ServiceOp where
  | next
  | prev
  | goTo (index : Nat)
deriving DecidableEq

/-- Apply one carousel action to the current index. -/
def applyServiceOp (currentServiceIndex : Nat) : ServiceOp → Nat
  | .next => nextService currentServiceIndex
  | .prev => previousService currentServiceIndex
  | .goTo index => goToService index

/-- Run a sequence of carousel actions from the initial index 0. -/
def runServiceOps (ops : List ServiceOp) : Nat := ops.foldl applyServiceOp 0

/-- A concrete particle with the smooth rocker enabled (bounds 0 and 25
degrees, 3-second period, as configured in the component options) and timing
state 0. -/
noncomputable def smoothParticle : SParticle :=
  { shapeData := some
      { rockerSmooth := some
          { enabled := some true, minDeg := some 0, maxDeg := some 25,
            periodSec := some 3 },
        rockerStep := none },
    rotation := 0, rockT := some 0, rockStepT := none }

/-- A concrete particle with the step rocker enabled (defaults 0 and 30
degrees, 2-second hold) and timing state 0. -/
noncomputable def stepParticle : SParticle :=
  { shapeData := some
      { rockerSmooth := none,
        rockerStep := some
          { enabled := some true, lowDeg := some 0, highDeg := some 30,
            holdSec := some 2 } },
    rotation := 0, rockT := none, rockStepT := some 0 }

theorem hpInv_start : HPInv HPState.start := by
  simp [HPInv, HPState.start]

theorem hpInv_step (s : HPState) (e : HPEv) (h : HPInv s) : HPInv (hpStep s e) := by
  obtain ⟨h1, h2, h3, h4, h5, h6, h7, h8⟩ := h
  cases e with
  | afterViewInit b =>
    cases b <;> simp only [hpStep] <;> split_ifs <;>
      first
      | exact ⟨h1, h2, h3, h4, h5, h6, h7, h8⟩
      | (refine ⟨?_, ?_, ?_, ?_, ?_, ?_, ?_, ?_⟩ <;> simp_all [HPInv] <;> try omega)
  | abortCheck =>
    simp only [hpStep] <;> split_ifs <;>
      first
      | exact ⟨h1, h2, h3, h4, h5, h6, h7, h8⟩
      | (refine ⟨?_, ?_, ?_, ?_, ?_, ?_, ?_, ?_⟩ <;> simp_all [HPInv] <;> try omega)
  | loadResolved o =>
    cases o <;> simp only [hpStep] <;> split_ifs <;>
      first
      | exact ⟨h1, h2, h3, h4, h5, h6, h7, h8⟩
      | (refine ⟨?_, ?_, ?_, ?_, ?_, ?_, ?_, ?_⟩ <;>
          simp_all [HPInv, EngineRec.fresh, EngineRec.destroy, EngineRec.play] <;>
          try omega)
  | resize =>
    simp only [hpStep] <;> split_ifs <;>
      first
      | exact ⟨h1, h2, h3, h4, h5, h6, h7, h8⟩
      | (refine ⟨?_, ?_, ?_, ?_, ?_, ?_, ?_, ?_⟩ <;> simp_all [HPInv] <;> try omega)
  | frame =>
    simp only [hpStep] <;> split_ifs <;>
      first
      | exact ⟨h1, h2, h3, h4, h5, h6, h7, h8⟩
      | (refine ⟨?_, ?_, ?_, ?_, ?_, ?_, ?_, ?_⟩ <;> simp_all [HPInv] <;> try omega)
  | teardown st dt =>
    rcases hc : s.container with _ | eng <;> simp only [hpStep, hc] <;>
      (refine ⟨?_, ?_, ?_, ?_, ?_, ?_, ?_, ?_⟩ <;> simp_all [HPInv] <;> try omega)

theorem hpInv_runFrom (s : HPState) (evs : List HPEv) (h : HPInv s) :
    HPInv (evs.foldl hpStep s) := by
  induction evs generalizing s with
  | nil => exact h
  | cons e rest ih => exact ih _ (hpInv_step s e h)

theorem hpInv_run (evs : List HPEv) : HPInv (hpRun evs) :=
  hpInv_runFrom _ _ hpInv_start

theorem hpStep_afterViewInit_noop (s : HPState) (b : Bool)
    (h : s.phase ≠ .idle) : hpStep s (.afterViewInit b) = s := by
  cases b <;> simp [hpStep, h]

theorem hpStep_resize_refreshCount (s : HPState) :
    (hpStep s .resize).refreshCount = s.refreshCount := by
  simp only [hpStep]; split_ifs <;> rfl

theorem hpStep_resize_burst_refreshCount (n : Nat) (s : HPState) :
    ((List.replicate n HPEv.resize).foldl hpStep s).refreshCount
      = s.refreshCount := by
  induction n generalizing s with
  | zero => rfl
  | succ n ih =>
    rw [List.replicate_succ, List.foldl_cons, ih, hpStep_resize_refreshCount]

theorem hpStep_frame_refreshCount (s : HPState) :
    (hpStep s .frame).refreshCount ≤ s.refreshCount + 1 := by
  simp only [hpStep]; split_ifs <;> simp

/-- C1.  For every reachable adapter state in which teardown has already run
(`destroyed = true`), a construction that is still in flight
(`phase = loadPending`) and then resolves with a live engine instance leaves
that instance never started and released (`playing = false`,
`destroyed = true`, recorded in `aborted`), and the stored instance reference
`this.container` is null after any resolution of the construction. -/
theorem c1_teardown_before_resolve (evs : List HPEv)
    (hd : (hpRun evs).destroyed = true) :
    ((hpRun evs).phase = .loadPending →
      (hpStep (hpRun evs) (.loadResolved .success)).aborted
          = some ⟨false, true⟩
      ∧ (hpStep (hpRun evs) (.loadResolved .success)).container = none)
    ∧ ∀ o : LoadOutcome,
        (hpStep (hpRun evs) (.loadResolved o)).container = none := by
  obtain ⟨h1, h2, h3, h4, h5, h6, h7, h8⟩ := hpInv_run evs
  have hc := h1 hd
  constructor
  · intro hp
    simp only [hpStep, hp, hd]
    simp [EngineRec.fresh, EngineRec.destroy, hc]
  · intro o
    cases o <;> simp only [hpStep] <;> split_ifs <;>
      simp_all [EngineRec.fresh, EngineRec.destroy]

/-- Witness for C1 at the concrete trace `c1Evs`. -/
theorem c1_teardown_before_resolve_witness :
    (hpRun c1Evs).destroyed = true
    ∧ (hpRun c1Evs).phase = .loadPending
    ∧ (hpStep (hpRun c1Evs) (.loadResolved .success)).aborted
        = some ⟨false, true⟩
    ∧ (hpStep (hpRun c1Evs) (.loadResolved .success)).container = none := by
  refine ⟨by decide, by decide, ?_, ?_⟩
  · exact ((c1_teardown_before_resolve c1Evs (by decide)).1 (by decide)).1
  · exact ((c1_teardown_before_resolve c1Evs (by decide)).1 (by decide)).2

/-- C2.  Per adapter lifetime at most one engine instance is ever produced
and at most one initialization attempt is ever started; a second
`ngAfterViewInit` while the initialization promise already exists is a no-op,
as is a call in a non-browser environment. -/
theorem c2_single_init_attempt :
    (∀ evs : List HPEv,
      (hpRun evs).created ≤ 1 ∧ (hpRun evs).attempts ≤ 1)
    ∧ (∀ (s : HPState) (b : Bool), s.phase ≠ .idle →
        hpStep s (.afterViewInit b) = s)
    ∧ (∀ s : HPState, hpStep s (.afterViewInit false) = s) := by
  refine ⟨fun evs => ?_, fun s b hp => hpStep_afterViewInit_noop s b hp,
    fun s => ?_⟩
  · obtain ⟨_, h2, _, h4, _⟩ := hpInv_run evs
    exact ⟨h2, h4⟩
  · simp [hpStep]

/-- Witness for C2: re-entry after a started activation is a no-op. -/
theorem c2_single_init_attempt_witness :
    (hpRun [HPEv.afterViewInit true]).phase ≠ InitPhase.idle
    ∧ hpStep (hpRun [HPEv.afterViewInit true]) (.afterViewInit true)
        = hpRun [HPEv.afterViewInit true] := by
  exact ⟨by decide, c2_single_init_attempt.2.1 _ true (by decide)⟩

/-- C5.  `onWindowResized` is a no-op without an engine instance; any burst
of resize events alone never invokes `refresh`; a burst of resize events
followed by the animation-frame callback invokes `refresh` at most once. -/
theorem c5_resize_coalescing :
    (∀ s : HPState, s.container = none → hpStep s .resize = s)
    ∧ (∀ s : HPState, s.resizeRaf = true → hpStep s .resize = s)
    ∧ (∀ (n : Nat) (s : HPState),
        ((List.replicate n HPEv.resize).foldl hpStep s).refreshCount
          = s.refreshCount)
    ∧ (∀ (n : Nat) (s : HPState),
        (hpStep ((List.replicate n HPEv.resize).foldl hpStep s)
            .frame).refreshCount
          ≤ s.refreshCount + 1) := by
  refine ⟨fun s hc => ?_, fun s hr => ?_,
    hpStep_resize_burst_refreshCount, fun n s => ?_⟩
  · simp [hpStep, hc]
  · simp only [hpStep, hr, if_true]
    split_ifs <;> rfl
  · calc (hpStep ((List.replicate n HPEv.resize).foldl hpStep s)
            .frame).refreshCount
        ≤ ((List.replicate n HPEv.resize).foldl hpStep s).refreshCount + 1 :=
          hpStep_frame_refreshCount _
      _ = s.refreshCount + 1 := by rw [hpStep_resize_burst_refreshCount]

/-- Witness for C5: with no engine instance the resize handler does
nothing. -/
theorem c5_resize_coalescing_witness :
    HPState.start.container = none
    ∧ hpStep HPState.start .resize = HPState.start
    ∧ ({ HPState.start with resizeRaf := true } : HPState).resizeRaf = true
    ∧ hpStep { HPState.start with resizeRaf := true } .resize
        = { HPState.start with resizeRaf := true } := by
  exact ⟨by decide, c5_resize_coalescing.1 HPState.start (by decide),
    by decide, c5_resize_coalescing.2.1 _ (by decide)⟩

/-- C6.  `ngOnDestroy` is idempotent — a second invocation (with any
throw behavior of `stop`/`destroy`) changes nothing — and every invocation
leaves the stored instance reference null, whether or not releasing threw. -/
theorem c6_teardown_idempotent :
    ∀ (s : HPState) (a b a2 b2 : Bool),
      hpStep (hpStep s (.teardown a b)) (.teardown a2 b2)
          = hpStep s (.teardown a b)
      ∧ (hpStep s (.teardown a b)).container = none := by
  intro s a b a2 b2
  rcases hc : s.container with _ | eng <;> simp [hpStep, hc]

/-- Counterexample to C8 as stated: when the construction call resolves to
null, nothing is logged to the diagnostic channel (`console.error` never
runs), contradicting the claim that this failure is logged. -/
theorem c8_null_resolution_not_logged :
    (hpRun c8Evs).phase = .loadPending
    ∧ (hpRun c8Evs).destroyed = false
    ∧ (hpStep (hpRun c8Evs) (.loadResolved .nullContainer)).errorLogged = false
    ∧ (hpStep (hpRun c8Evs) (.loadResolved .nullContainer)).container = none := by
  decide

/-- C8 (amended).  If the construction call rejects, the failure is logged to
the diagnostic channel; if it resolves to null, nothing is logged; in both
cases the adapter remains with no instance (`this.container` null) and no
retry is attempted (a later `ngAfterViewInit` is a no-op). -/
theorem c8_construction_failure_handling (evs : List HPEv)
    (hp : (hpRun evs).phase = .loadPending) :
    ((hpStep (hpRun evs) (.loadResolved .failure)).errorLogged = true
      ∧ (hpStep (hpRun evs) (.loadResolved .failure)).container = none
      ∧ ∀ b, hpStep (hpStep (hpRun evs) (.loadResolved .failure))
                (.afterViewInit b)
              = hpStep (hpRun evs) (.loadResolved .failure))
    ∧ ((hpStep (hpRun evs) (.loadResolved .nullContainer)).errorLogged = false
      ∧ (hpStep (hpRun evs) (.loadResolved .nullContainer)).container = none
      ∧ ∀ b, hpStep (hpStep (hpRun evs) (.loadResolved .nullContainer))
                (.afterViewInit b)
              = hpStep (hpRun evs) (.loadResolved .nullContainer)) := by
  obtain ⟨h1, h2, h3, h4, h5, h6, h7, h8⟩ := hpInv_run evs
  have hc : (hpRun evs).container = none := h6 (by simp [hp])
  have he : (hpRun evs).errorLogged = false := h7 (by simp [hp])
  constructor
  · refine ⟨?_, ?_, fun b => ?_⟩
    · simp [hpStep, hp]
    · simp [hpStep, hp, hc]
    · refine hpStep_afterViewInit_noop _ b ?_
      simp [hpStep, hp]
  · refine ⟨?_, ?_, fun b => ?_⟩
    · simp only [hpStep, hp]
      split_ifs <;> simp [he]
    · simp only [hpStep, hp]
      split_ifs <;> simp [hc]
    · refine hpStep_afterViewInit_noop _ b ?_
      simp only [hpStep, hp]
      split_ifs <;> simp_all

/-- Witness for C8 (amended) at the concrete trace `c8Evs`. -/
theorem c8_construction_failure_handling_witness :
    (hpRun c8Evs).phase = .loadPending
    ∧ (hpStep (hpRun c8Evs) (.loadResolved .failure)).errorLogged = true
    ∧ (hpStep (hpRun c8Evs) (.loadResolved .failure)).container = none
    ∧ (hpStep (hpRun c8Evs) (.loadResolved .nullContainer)).container = none := by
  refine ⟨by decide, ?_, ?_, ?_⟩
  · exact (c8_construction_failure_handling c8Evs (by decide)).1.1
  · exact (c8_construction_failure_handling c8Evs (by decide)).1.2.1
  · exact (c8_construction_failure_handling c8Evs (by decide)).2.2.1

theorem jsMod_small (b t : ℝ) (hb : 0 < b) (h0 : 0 ≤ t) (h1 : t < b) :
    jsMod t b = t := by
  have hq0 : 0 ≤ t / b := div_nonneg h0 hb.le
  have hq1 : t / b < 1 := (div_lt_one hb).mpr h1
  have hf : ⌊t / b⌋ = 0 := Int.floor_eq_zero_iff.mpr ⟨hq0, hq1⟩
  simp [jsMod, hq0, hf]

/-- C7.  The smooth rocker's rotation at accumulated time equal to exactly
one full period is the center angle (midpoint of the configured min and max
degrees, in radians); the step rocker's rotation at accumulated time equal to
exactly the hold duration is the high bound, while strictly below the hold
duration it is the low bound. -/
theorem c7_rocker_boundary_angles :
    (∀ (p : SParticle) (rand deltaMs : ℝ),
      isEnabledSmooth p = true →
      (smoothCfg p).periodSec.getD 4 ≠ 0 →
      p.rockT.getD (rand * (smoothCfg p).periodSec.getD 4) + deltaMs / 1000
          = (smoothCfg p).periodSec.getD 4 →
      (rockerSmoothUpdate rand deltaMs p).rotation
          = degToRad (((smoothCfg p).minDeg.getD 0
              + (smoothCfg p).maxDeg.getD 30) / 2))
    ∧ (∀ (p : SParticle) (deltaMs : ℝ),
      isEnabledStep p = true →
      0 < (stepCfg p).holdSec.getD 2 →
      (p.rockStepT.getD 0 + deltaMs / 1000 = (stepCfg p).holdSec.getD 2 →
        (rockerStepUpdate deltaMs p).rotation
            = degToRad ((stepCfg p).highDeg.getD 30))
      ∧ (0 ≤ p.rockStepT.getD 0 + deltaMs / 1000 →
          p.rockStepT.getD 0 + deltaMs / 1000 < (stepCfg p).holdSec.getD 2 →
          (rockerStepUpdate deltaMs p).rotation
            = degToRad ((stepCfg p).lowDeg.getD 0))) := by
  constructor
  · intro p rand deltaMs hen hP ht
    simp only [rockerSmoothUpdate, hen, Bool.true_eq_false, if_false]
    rw [ht]
    have hω : 2 * Real.pi / ((smoothCfg p).periodSec.getD 4)
        * ((smoothCfg p).periodSec.getD 4) = 2 * Real.pi := by
      field_simp
    rw [hω, Real.sin_two_pi, mul_zero, add_zero, degToRad]
  · intro p deltaMs hen hh
    constructor
    · intro ht
      simp only [rockerStepUpdate, hen, Bool.true_eq_false, if_false]
      rw [ht]
      have hm : jsMod ((stepCfg p).holdSec.getD 2)
          (2 * (stepCfg p).holdSec.getD 2) = (stepCfg p).holdSec.getD 2 :=
        jsMod_small _ _ (by linarith) hh.le (by linarith)
      rw [hm, if_neg (lt_irrefl _), degToRad]
    · intro h0 h1
      simp only [rockerStepUpdate, hen, Bool.true_eq_false, if_false]
      have hm : jsMod (p.rockStepT.getD 0 + deltaMs / 1000)
          (2 * (stepCfg p).holdSec.getD 2)
            = p.rockStepT.getD 0 + deltaMs / 1000 :=
        jsMod_small _ _ (by linarith) h0 (by linarith)
      rw [hm, if_pos h1, degToRad]

/-- Witness for C7: the configured smooth rocker (0–25 degrees, 3-second
period) at accumulated time 3 s is at the center angle 12.5 degrees, and the
step rocker (0–30 degrees, 2-second hold) at accumulated time 2 s is at the
high bound. -/
theorem c7_rocker_boundary_angles_witness :
    isEnabledSmooth smoothParticle = true
    ∧ (rockerSmoothUpdate 0 3000 smoothParticle).rotation = degToRad (25 / 2)
    ∧ isEnabledStep stepParticle = true
    ∧ (rockerStepUpdate 2000 stepParticle).rotation = degToRad 30
    ∧ (rockerStepUpdate 500 stepParticle).rotation = degToRad 0 := by
  refine ⟨rfl, ?_, rfl, ?_, ?_⟩
  · have h := c7_rocker_boundary_angles.1 smoothParticle 0 3000 rfl
      (by norm_num [smoothCfg, smoothParticle])
      (by norm_num [smoothCfg, smoothParticle])
    simpa [smoothCfg, smoothParticle] using h
  · have h := (c7_rocker_boundary_angles.2 stepParticle 2000 rfl
      (by norm_num [stepCfg, stepParticle])).1
      (by norm_num [stepCfg, stepParticle])
    simpa [stepCfg, stepParticle] using h
  · have h := (c7_rocker_boundary_angles.2 stepParticle 500 rfl
      (by norm_num [stepCfg, stepParticle])).2
      (by norm_num [stepParticle])
      (by norm_num [stepCfg, stepParticle])
    simpa [stepCfg, stepParticle] using h

/-- C9.  Both updaters convert the computed angle from degrees to radians
before writing the particle's rotation field, and convert the frame delta
from milliseconds to seconds before accumulating it into the particle's
private timing state. -/
theorem c9_unit_conversions (p : SParticle) (rand deltaMs : ℝ) :
    (isEnabledSmooth p = true →
      (rockerSmoothUpdate rand deltaMs p).rockT
          = some (p.rockT.getD (rand * (smoothCfg p).periodSec.getD 4)
                    + msToSec deltaMs)
      ∧ (rockerSmoothUpdate rand deltaMs p).rotation
          = degToRad (smoothAngleDeg ((smoothCfg p).minDeg.getD 0)
              ((smoothCfg p).maxDeg.getD 30) ((smoothCfg p).periodSec.getD 4)
              (p.rockT.getD (rand * (smoothCfg p).periodSec.getD 4)
                + msToSec deltaMs)))
    ∧ (isEnabledStep p = true →
      (rockerStepUpdate deltaMs p).rockStepT
          = some (p.rockStepT.getD 0 + msToSec deltaMs)
      ∧ (rockerStepUpdate deltaMs p).rotation
          = degToRad (stepAngleDeg ((stepCfg p).lowDeg.getD 0)
              ((stepCfg p).highDeg.getD 30) ((stepCfg p).holdSec.getD 2)
              (p.rockStepT.getD 0 + msToSec deltaMs))) := by
  constructor
  · intro hen
    simp only [rockerSmoothUpdate, hen, Bool.true_eq_false, if_false]
    exact ⟨rfl, rfl⟩
  · intro hen
    simp only [rockerStepUpdate, hen, Bool.true_eq_false, if_false]
    refine ⟨rfl, ?_⟩
    simp only [degToRad, stepAngleDeg, msToSec, jsMod]

/-- Witness for C9 at the concrete particles `smoothParticle` and
`stepParticle`. -/
theorem c9_unit_conversions_witness :
    (rockerSmoothUpdate 0 500 smoothParticle).rockT = some (0 + msToSec 500)
    ∧ (rockerStepUpdate 500 stepParticle).rockStepT = some (0 + msToSec 500) := by
  constructor
  · have h := ((c9_unit_conversions smoothParticle 0 500).1 rfl).1
    simpa [smoothCfg, smoothParticle] using h
  · have h := ((c9_unit_conversions stepParticle 0 500).2 rfl).1
    simpa [stepParticle] using h

theorem setActiveSection_current (sid : String) (s : NavState) :
    (setActiveSection sid s).currentActiveSection = sid := rfl

theorem findActiveSection_eq (g : PageGeom) (mid : ℚ) :
    findActiveSection g.scrollY mid (trackedSections g)
      = (if rectContainsMid g.scrollY mid g.galleryRect then "gallery-section"
        else if rectContainsMid g.scrollY mid g.servicesRect then
          "services-section"
        else if rectContainsMid g.scrollY mid g.aboutMeRect then
          "about-me-section"
        else "top") := by
  rcases g with ⟨sy, ih, gr, sr, ar⟩
  rcases gr with _ | r1 <;> rcases sr with _ | r2 <;> rcases ar with _ | r3 <;>
    simp only [trackedSections, findActiveSection, rectContainsMid,
      decide_eq_true_eq, Bool.false_eq_true, if_false] <;>
    split_ifs <;> simp_all

theorem updateActiveSection_current (g : PageGeom) (s : NavState) :
    (updateActiveSection g s).currentActiveSection = specActiveSection g := by
  simp only [updateActiveSection, specActiveSection, ← findActiveSection_eq]
  split_ifs <;> simp_all [setActiveSection]

/-- Counterexample to C4 as stated: with the component's initial state
(`currentActiveSection = "top"`, all `isActive` flags false) and scroll
offset 50 (below the threshold), the computed section equals the current one,
yet `updateActiveSection` still mutates the state — the below-threshold path
re-renders unconditionally. -/
theorem c4_below_threshold_renders_unconditionally :
    specActiveSection ⟨50, 800, none, none, none⟩
        = NavState.start.currentActiveSection
    ∧ updateActiveSection ⟨50, 800, none, none, none⟩ NavState.start
        ≠ NavState.start := by decide

/-- C4 (amended).  The active section computed by `updateActiveSection` is:
`"top"` whenever the scroll offset is below 100; otherwise the first of
gallery, services, about-me whose document-relative bounds contain the
viewport midpoint, with fallback `"top"` — and in the at-or-above-threshold
path, state is updated only when the computed section differs from the
current one (the below-threshold path applies the `"top"` assignment
unconditionally). -/
theorem c4_active_section_computation (g : PageGeom) (s : NavState) :
    (updateActiveSection g s).currentActiveSection = specActiveSection g
    ∧ (¬ g.scrollY < 100 → specActiveSection g = s.currentActiveSection →
        updateActiveSection g s = s) := by
  refine ⟨updateActiveSection_current g s, fun h100 heq => ?_⟩
  have hA : findActiveSection g.scrollY (g.scrollY + g.innerHeight / 2)
      (trackedSections g) = s.currentActiveSection := by
    rw [findActiveSection_eq]
    rw [specActiveSection, if_neg h100] at heq
    exact heq
  simp only [updateActiveSection, if_neg h100, hA]
  simp

/-- Witness for C4 (amended): at scroll offset 200 with no tracked section
elements, the computed section `"top"` equals the current one and the state
is left untouched. -/
theorem c4_active_section_computation_witness :
    ¬ ((200 : ℚ) < 100)
    ∧ specActiveSection ⟨200, 800, none, none, none⟩
        = NavState.start.currentActiveSection
    ∧ updateActiveSection ⟨200, 800, none, none, none⟩ NavState.start
        = NavState.start := by
  refine ⟨by decide, by decide, ?_⟩
  exact (c4_active_section_computation ⟨200, 800, none, none, none⟩
    NavState.start).2 (by decide) (by decide)

/-- Counterexample to C3 as stated: clicking the Gallery link when no
selector resolves (`dom` finds nothing) logs the warning but does NOT leave
`currentActiveSection` unchanged — it becomes `"gallery-section"`. -/
theorem c3_unresolvable_target_changes_active :
    (onNavigationClick (fun _ => false)
        ⟨"Gallery", "#gallery", "gallery-section", false⟩ NavState.start).2
      = true
    ∧ (onNavigationClick (fun _ => false)
        ⟨"Gallery", "#gallery", "gallery-section", false⟩
        NavState.start).1.currentActiveSection
      ≠ NavState.start.currentActiveSection := by decide

/-- C3 (amended).  `onNavigationClick` always immediately sets the clicked
item's `isActive` flag and clears every other item's, and always sets
`currentActiveSection` to the clicked item's target — even when the target
is unresolvable, in which case a warning is logged (the warning fires exactly
when the target is neither `"top"` nor empty and no selector matches). -/
theorem c3_click_active_update (dom : String → Bool) (item : NavItem)
    (s : NavState) :
    (onNavigationClick dom item s).1.currentActiveSection = item.scrollTarget
    ∧ (∀ it ∈ (onNavigationClick dom item s).1.navigationItems,
        it.isActive = (it.scrollTarget == item.scrollTarget))
    ∧ ((onNavigationClick dom item s).2
        = (!(item.scrollTarget == "top") && !(item.scrollTarget == "")
            && !resolveSelector dom item.scrollTarget)) := by
  refine ⟨rfl, ?_, ?_⟩
  · intro it hit
    simp only [onNavigationClick, setActiveSection, List.mem_map] at hit
    obtain ⟨a, _, rfl⟩ := hit
    rfl
  · simp only [onNavigationClick]
    by_cases h1 : item.scrollTarget = "top" <;>
      by_cases h2 : item.scrollTarget = "" <;>
        simp_all [scrollToSectionWarns]

/-- Witness for C3 (amended): clicking the Services link with a resolving
selector activates exactly that item. -/
theorem c3_click_active_update_witness :
    (onNavigationClick (fun _ => true)
        ⟨"Services", "#services", "services-section", false⟩
        NavState.start).1.currentActiveSection = "services-section"
    ∧ NavItem.mk "Home" "#home" "top" false
        ∈ (onNavigationClick (fun _ => true)
            ⟨"Services", "#services", "services-section", false⟩
            NavState.start).1.navigationItems
    ∧ (NavItem.mk "Home" "#home" "top" false).isActive
        = ("top" == "services-section")
    ∧ (onNavigationClick (fun _ => true)
        ⟨"Services", "#services", "services-section", false⟩
        NavState.start).2 = false := by
  refine ⟨?_, by decide, ?_, ?_⟩
  · exact (c3_click_active_update (fun _ => true)
      ⟨"Services", "#services", "services-section", false⟩ NavState.start).1
  · exact (c3_click_active_update (fun _ => true)
      ⟨"Services", "#services", "services-section", false⟩ NavState.start).2.1
      (NavItem.mk "Home" "#home" "top" false) (by decide)
  · have h := (c3_click_active_update (fun _ => true)
      ⟨"Services", "#services", "services-section", false⟩ NavState.start).2.2
    simpa using h

theorem applyServiceOp_lt (idx : Nat) (op : ServiceOp)
    (h : idx < services.length)
    (hop : ∀ i, op = ServiceOp.goTo i → i < services.length) :
    applyServiceOp idx op < services.length := by
  cases op with
  | next =>
    simp only [applyServiceOp, nextService, services] at *
    split_ifs <;> omega
  | prev =>
    simp only [applyServiceOp, previousService, services] at *
    split_ifs <;> omega
  | goTo i => exact hop i rfl

theorem foldl_serviceOps_lt (ops : List ServiceOp) (idx : Nat)
    (h : idx < services.length)
    (hv : ∀ i, ServiceOp.goTo i ∈ ops → i < services.length) :
    ops.foldl applyServiceOp idx < services.length := by
  induction ops generalizing idx with
  | nil => exact h
  | cons op rest ih =>
    rw [List.foldl_cons]
    refine ih _ (applyServiceOp_lt idx op h fun i hi => ?_)
      fun i hi => hv i (List.mem_cons_of_mem _ hi)
    exact hv i (hi ▸ List.mem_cons_self _ _)

/-- C10.  Starting from index 0, every sequence of `nextService`,
`previousService` and in-range `goToService` calls keeps
`currentServiceIndex` within the bounds of the three-element `services`
array; `nextService` wraps the last index to 0 and `previousService` wraps 0
to the last index. -/
theorem c10_carousel_bounds :
    (∀ ops : List ServiceOp,
      (∀ i, ServiceOp.goTo i ∈ ops → i < services.length) →
      runServiceOps ops < services.length)
    ∧ nextService (services.length - 1) = 0
    ∧ previousService 0 = services.length - 1 := by
  refine ⟨fun ops hv => foldl_serviceOps_lt ops 0 (by decide) hv, by decide,
    by decide⟩

/-- Witness for C10 at a concrete in-range call sequence. -/
theorem c10_carousel_bounds_witness :
    (∀ i, ServiceOp.goTo i
        ∈ [ServiceOp.next, ServiceOp.next, ServiceOp.next, ServiceOp.prev,
            ServiceOp.goTo 1] → i < services.length)
    ∧ runServiceOps
        [ServiceOp.next, ServiceOp.next, ServiceOp.next, ServiceOp.prev,
          ServiceOp.goTo 1] < services.length := by
  have hv : ∀ i, ServiceOp.goTo i
      ∈ [ServiceOp.next, ServiceOp.next, ServiceOp.next, ServiceOp.prev,
          ServiceOp.goTo 1] → i < services.length := by
    intro i hi
    simp at hi
    subst hi
    decide
  exact ⟨hv, c10_carousel_bounds.1 _ hv⟩
